import Mathlib

/-!
Verification of the typographic-flow repository (src/pages/index.tsx and
src/util/markdown.ts) against its natural-language specification.

Shallow embedding conventions:
* JavaScript numbers are modelled as exact rationals (`ℚ`).  All numeric
  values occurring in the program (font sizes, ratios, weights) are small
  decimals that are handled exactly; IEEE-754 rounding error is not modelled.
* `Math.round` rounds half toward positive infinity, i.e. `⌊x + 1/2⌋`.
* TypeScript string-keyed records of algorithms (`rampAlgorithms`,
  `weightRampAlgorithms`) are modelled by inductive enumerations of their
  keys together with a dispatch function; the UI only ever stores one of the
  listed keys in the settings record.
* Template-literal interpolation `${e}` is modelled by `numStr` (JavaScript
  number-to-string conversion, exact on terminating decimals).
-/

attribute [local semireducible] Rat.add Rat.mul Rat.inv Rat.sub Rat.ofScientific

/-- JavaScript `Math.round`: round half up, `⌊q + 1/2⌋`, as a rational. -/
def jroundQ (q : ℚ) : ℚ := ((⌊q + 1/2⌋ : ℤ) : ℚ)

/-- Decimal digits of the fractional part `r / d`, `fuel` digits at most
(JavaScript prints at most 17 significant digits; every value interpolated by
the program is a short terminating decimal, on which this is exact). -/
def fracDigits (d : ℕ) : ℕ → ℕ → String
  | 0, _ => ""
  | fuel + 1, r =>
    if r = 0 then ""
    else
      let r10 := r * 10
      String.singleton (Nat.digitChar (r10 / d)) ++ fracDigits d fuel (r10 % d)

/-- JavaScript number-to-string conversion (template-literal interpolation and
`Number.prototype.toString`), restricted to terminating decimals. -/
def numStr (q : ℚ) : String :=
  let sign := if q.num < 0 then "-" else ""
  let n := q.num.natAbs
  if q.den = 1 then sign ++ toString n
  else sign ++ toString (n / q.den) ++ "." ++ fracDigits q.den 17 (n % q.den)

/-- A numeric value followed by the CSS `px` unit, as interpolated by the
export generators. -/
def px (q : ℚ) : String := numStr q ++ "px"

/-- A numeric value followed by the CSS `em` unit. -/
def emQ (q : ℚ) : String := numStr q ++ "em"

/-- `JSON.stringify` escaping of a single character inside a string literal. -/
def jsonEscChar (c : Char) : String :=
  if c = '"' then "\\\""
  else if c = '\\' then "\\\\"
  else if c = '\n' then "\\n"
  else if c = '\r' then "\\r"
  else if c = '\t' then "\\t"
  else if c.toNat = 8 then "\\b"
  else if c.toNat = 12 then "\\f"
  else if c.toNat < 32 then
    "\\u00" ++ String.singleton (Nat.digitChar (c.toNat / 16))
      ++ String.singleton (Nat.digitChar (c.toNat % 16))
  else String.singleton c

/-- `JSON.stringify` of a string value. -/
def jsonStr (s : String) : String :=
  "\"" ++ String.join (s.data.map jsonEscChar) ++ "\""

/-- The string `p` occurs contiguously inside `t`. -/
def containsSeg (p t : String) : Prop := ∃ a b : String, t = a ++ p ++ b

/-- The `rampAlgorithm` field: keys of the `rampAlgorithms` record. -/
inductive RampAlg where
  | modular
  | linear
  | fibonacci
  | custom
deriving DecidableEq

/-- The `fontWeightRampAlgorithm` field: keys of `weightRampAlgorithms`. -/
inductive WeightAlg where
  | stepped
  | linear
  | custom
deriving DecidableEq

/-- Viewport sizes for preview and export (`type ViewportSize`). -/
inductive ViewportSize where
  | mobile
  | tablet
  | desktop
deriving DecidableEq

/-- The `TypographySettings` interface of `src/pages/index.tsx`. -/
structure TypographySettings where
  baseFontSize : ℚ
  baseLineHeight : ℚ
  scaleRatio : ℚ
  paragraphSpacing : ℚ
  headingSpacing : ℚ
  listSpacing : ℚ
  rampAlgorithm : RampAlg
  minFontSize : ℚ
  maxFontSize : ℚ
  customRampValues : List ℚ
  responsiveScaling : Bool
  mobileScaleFactor : ℚ
  tabletScaleFactor : ℚ
  breakpointMobile : ℚ
  breakpointTablet : ℚ
  fontFamily : String
  headingFontFamily : String
  useSeparateHeadingFont : Bool
  baseFontWeight : ℚ
  fontWeightRampAlgorithm : WeightAlg
  minFontWeight : ℚ
  maxFontWeight : ℚ
  customWeightRampValues : List ℚ
  useWeightRamp : Bool
deriving DecidableEq

/-- The `defaultSettings` constant. -/
def defaultSettings : TypographySettings where
  baseFontSize := 16
  baseLineHeight := 3/2
  scaleRatio := 6/5
  paragraphSpacing := 3/2
  headingSpacing := 1
  listSpacing := 1
  rampAlgorithm := RampAlg.modular
  minFontSize := 14
  maxFontSize := 48
  customRampValues := [48, 36, 24, 20, 16, 14]
  responsiveScaling := true
  mobileScaleFactor := 3/4
  tabletScaleFactor := 9/10
  breakpointMobile := 480
  breakpointTablet := 768
  fontFamily := "Inter"
  headingFontFamily := "Inter"
  useSeparateHeadingFont := false
  baseFontWeight := 400
  fontWeightRampAlgorithm := WeightAlg.stepped
  minFontWeight := 400
  maxFontWeight := 700
  customWeightRampValues := [700, 700, 600, 600, 500, 400]
  useWeightRamp := true

/-- `weightRampAlgorithms.stepped.calculateWeights`. -/
def weightsStepped (s : TypographySettings) : List ℚ :=
  if s.useWeightRamp then s.customWeightRampValues else [700, 700, 600, 600, 500, 400]

/-- `weightRampAlgorithms.linear.calculateWeights`. -/
def weightsLinear (s : TypographySettings) : List ℚ :=
  if !s.useWeightRamp then [700, 700, 600, 600, 500, 400]
  else
    let step := (s.maxFontWeight - s.minFontWeight) / 5
    [jroundQ s.maxFontWeight,
     jroundQ (s.maxFontWeight - step),
     jroundQ (s.maxFontWeight - 2 * step),
     jroundQ (s.maxFontWeight - 3 * step),
     jroundQ (s.maxFontWeight - 4 * step),
     jroundQ s.minFontWeight]

/-- `weightRampAlgorithms.custom.calculateWeights`. -/
def weightsCustom (s : TypographySettings) : List ℚ :=
  if s.useWeightRamp then s.customWeightRampValues else [700, 700, 600, 600, 500, 400]

/-- Dispatch on the `weightRampAlgorithms` record:
`weightRampAlgorithms[key].calculateWeights`. -/
def weightRampCalculateWeights (a : WeightAlg) (s : TypographySettings) : List ℚ :=
  match a with
  | WeightAlg.stepped => weightsStepped s
  | WeightAlg.linear => weightsLinear s
  | WeightAlg.custom => weightsCustom s

/-- `rampAlgorithms.modular.calculateSizes`. -/
def sizesModular (s : TypographySettings) : List ℚ :=
  [jroundQ (s.baseFontSize * s.scaleRatio ^ 4),
   jroundQ (s.baseFontSize * s.scaleRatio ^ 3),
   jroundQ (s.baseFontSize * s.scaleRatio ^ 2),
   jroundQ (s.baseFontSize * s.scaleRatio ^ 1),
   jroundQ s.baseFontSize,
   jroundQ (s.baseFontSize * (9/10))]

/-- `rampAlgorithms.linear.calculateSizes`. -/
def sizesLinear (s : TypographySettings) : List ℚ :=
  let step := (s.maxFontSize - s.minFontSize) / 5
  [jroundQ s.maxFontSize,
   jroundQ (s.maxFontSize - step),
   jroundQ (s.maxFontSize - 2 * step),
   jroundQ (s.maxFontSize - 3 * step),
   jroundQ (s.maxFontSize - 4 * step),
   jroundQ s.minFontSize]

/-- `rampAlgorithms.fibonacci.calculateSizes`:
`[8, 5, 3, 2, 1, 1].map(ratio => Math.round(baseSize * ratio / 3))`. -/
def sizesFibonacci (s : TypographySettings) : List ℚ :=
  [(8 : ℚ), 5, 3, 2, 1, 1].map fun ratio => jroundQ (s.baseFontSize * ratio / 3)

/-- `rampAlgorithms.custom.calculateSizes`: returns `customRampValues` as is. -/
def sizesCustom (s : TypographySettings) : List ℚ :=
  s.customRampValues

/-- Dispatch on the `rampAlgorithms` record: `rampAlgorithms[key].calculateSizes`. -/
def rampCalculateSizes (a : RampAlg) (s : TypographySettings) : List ℚ :=
  match a with
  | RampAlg.modular => sizesModular s
  | RampAlg.linear => sizesLinear s
  | RampAlg.fibonacci => sizesFibonacci s
  | RampAlg.custom => sizesCustom s

/-- `getScaleFactor(viewport)`; the surrounding component's `settings` state is
passed explicitly. -/
def getScaleFactor (viewport : ViewportSize) (s : TypographySettings) : ℚ :=
  match viewport with
  | ViewportSize.mobile => if s.responsiveScaling then s.mobileScaleFactor else 1
  | ViewportSize.tablet => if s.responsiveScaling then s.tabletScaleFactor else 1
  | ViewportSize.desktop => 1

/-- `calculateSizesForViewport(viewport)`. -/
def calculateSizesForViewport (viewport : ViewportSize) (s : TypographySettings) : List ℚ :=
  (rampCalculateSizes s.rampAlgorithm s).map fun size =>
    jroundQ (size * getScaleFactor viewport s)

/-- `calculateFontWeights()`. -/
def calculateFontWeights (s : TypographySettings) : List ℚ :=
  weightRampCalculateWeights s.fontWeightRampAlgorithm s

/-- The component constant `desktopSizes`. -/
def desktopSizes (s : TypographySettings) : List ℚ :=
  calculateSizesForViewport ViewportSize.desktop s

/-- The component constant `tabletSizes`. -/
def tabletSizes (s : TypographySettings) : List ℚ :=
  calculateSizesForViewport ViewportSize.tablet s

/-- The component constant `mobileSizes`. -/
def mobileSizes (s : TypographySettings) : List ℚ :=
  calculateSizesForViewport ViewportSize.mobile s


/-- `font.replace(/ /g, '+')` as used when building Google-Fonts URLs. -/
def googleFam (f : String) : String := f.replace " " "+"

/-- The `fontWeights` constant computed identically at the top of each of the
three export generators:
`settings.useWeightRamp ? weightRampAlgorithms[settings.fontWeightRampAlgorithm].calculateWeights(settings) : [700, 700, 600, 600, 500, 400]`. -/
def exportFontWeights (s : TypographySettings) : List ℚ :=
  if s.useWeightRamp then weightRampCalculateWeights s.fontWeightRampAlgorithm s
  else [700, 700, 600, 600, 500, 400]

/-- `tabletBaseFontSize = Math.round(settings.baseFontSize * settings.tabletScaleFactor)`,
computed identically inside each export generator. -/
def tabletBaseFontSize (s : TypographySettings) : ℚ :=
  jroundQ (s.baseFontSize * s.tabletScaleFactor)

/-- `mobileBaseFontSize = Math.round(settings.baseFontSize * settings.mobileScaleFactor)`,
computed identically inside each export generator. -/
def mobileBaseFontSize (s : TypographySettings) : ℚ :=
  jroundQ (s.baseFontSize * s.mobileScaleFactor)

/-- Array destructuring `const [x1, ..., x6] = l` reads positions `0..5`; the
program only ever destructures the six-element results of the size and weight
calculations (a shorter list would yield `undefined` in JavaScript, which has
no counterpart in `ℚ` and does not occur on the program's own data). -/
def sizeAt (l : List ℚ) (i : ℕ) : ℚ := l.getD i 0

/-- The six `--hN-size` custom-property lines of a CSS `:root` block. -/
def cssSizeVars (ind : String) (l : List ℚ) : String :=
  (ind ++ "--h1-size: " ++ px (sizeAt l 0) ++ ";\n") ++
  (ind ++ "--h2-size: " ++ px (sizeAt l 1) ++ ";\n") ++
  (ind ++ "--h3-size: " ++ px (sizeAt l 2) ++ ";\n") ++
  (ind ++ "--h4-size: " ++ px (sizeAt l 3) ++ ";\n") ++
  (ind ++ "--h5-size: " ++ px (sizeAt l 4) ++ ";\n") ++
  (ind ++ "--h6-size: " ++ px (sizeAt l 5) ++ ";\n")

/-- The six `--hN-weight` custom-property lines of a CSS `:root` block. -/
def cssWeightVars (ind : String) (l : List ℚ) : String :=
  (ind ++ "--h1-weight: " ++ numStr (sizeAt l 0) ++ ";\n") ++
  (ind ++ "--h2-weight: " ++ numStr (sizeAt l 1) ++ ";\n") ++
  (ind ++ "--h3-weight: " ++ numStr (sizeAt l 2) ++ ";\n") ++
  (ind ++ "--h4-weight: " ++ numStr (sizeAt l 3) ++ ";\n") ++
  (ind ++ "--h5-weight: " ++ numStr (sizeAt l 4) ++ ";\n") ++
  (ind ++ "--h6-weight: " ++ numStr (sizeAt l 5) ++ ";\n")

/-- The `/* Mobile styles */` block of `generateCSSCode` (responsive branch). -/
def cssMobileBlock (s : TypographySettings) : String :=
  ("/* Mobile styles */\n:root \x7b\n") ++
  ("  --base-font-size: " ++ px (mobileBaseFontSize s) ++ ";\n") ++
  ("  --base-line-height: " ++ numStr s.baseLineHeight ++ ";\n") ++
  ("  --paragraph-spacing: " ++ emQ s.paragraphSpacing ++ ";\n") ++
  ("  --heading-spacing: " ++ emQ s.headingSpacing ++ ";\n") ++
  ("  --list-spacing: " ++ emQ s.listSpacing ++ ";\n") ++
  cssSizeVars "  " (mobileSizes s) ++
  cssWeightVars "  " (exportFontWeights s) ++
  ("  --body-weight: " ++ numStr s.baseFontWeight ++ ";\n\x7d\n\n")

/-- The `/* Tablet styles */` media query of `generateCSSCode`. -/
def cssTabletBlock (s : TypographySettings) : String :=
  ("/* Tablet styles */\n@media (min-width: " ++ px s.breakpointMobile ++ ") \x7b\n  :root \x7b\n") ++
  ("    --base-font-size: " ++ px (tabletBaseFontSize s) ++ ";\n") ++
  cssSizeVars "    " (tabletSizes s) ++
  ("  \x7d\n\x7d\n\n")

/-- The `/* Desktop styles */` media query of `generateCSSCode`. -/
def cssDesktopBlock (s : TypographySettings) : String :=
  ("/* Desktop styles */\n@media (min-width: " ++ px s.breakpointTablet ++ ") \x7b\n  :root \x7b\n") ++
  ("    --base-font-size: " ++ px s.baseFontSize ++ ";\n") ++
  cssSizeVars "    " (desktopSizes s) ++
  ("  \x7d\n\x7d\n\n")

/-- The non-responsive `:root` block of `generateCSSCode`. -/
def cssStaticBlock (s : TypographySettings) : String :=
  (":root \x7b\n") ++
  ("  --base-font-size: " ++ px s.baseFontSize ++ ";\n") ++
  ("  --base-line-height: " ++ numStr s.baseLineHeight ++ ";\n") ++
  ("  --paragraph-spacing: " ++ emQ s.paragraphSpacing ++ ";\n") ++
  ("  --heading-spacing: " ++ emQ s.headingSpacing ++ ";\n") ++
  ("  --list-spacing: " ++ emQ s.listSpacing ++ ";\n") ++
  cssSizeVars "  " (desktopSizes s) ++
  cssWeightVars "  " (exportFontWeights s) ++
  ("  --body-weight: " ++ numStr s.baseFontWeight ++ ";\n\x7d\n\n")

/-- The optional `font-family` line of the heading rules in the CSS export. -/
def headingFontCSS (s : TypographySettings) : String :=
  if s.useSeparateHeadingFont then
    "font-family: \"" ++ s.headingFontFamily ++ "\", sans-serif;"
  else ""

/-- One heading rule (`h1` .. `h6`) of the CSS export's common styles. -/
def cssHBlock (n : String) (mt : Bool) (lh : String) (s : TypographySettings) : String :=
  ("h" ++ n ++ " \x7b\n  font-size: var(--h" ++ n ++ "-size);\n") ++
  (if mt then "  margin-top: 1.5em;\n" else "") ++
  ("  margin-bottom: var(--heading-spacing);\n  line-height: " ++ lh ++
     ";\n  font-weight: var(--h" ++ n ++ "-weight);\n  ") ++
  headingFontCSS s ++ "\n\x7d\n\n"

/-- The common trailing styles of `generateCSSCode` (font imports, `body`,
heading rules, paragraph and list rules). -/
def cssCommon (s : TypographySettings) : String :=
  ("/* Font imports */\n@import url(\x27https://fonts.googleapis.com/css2?family=" ++
     googleFam s.fontFamily ++ ":wght@400;700&display=swap\x27);\n") ++
  (if s.useSeparateHeadingFont = true ∧ s.headingFontFamily ≠ s.fontFamily then
     "@import url(\x27https://fonts.googleapis.com/css2?family=" ++
       googleFam s.headingFontFamily ++ ":wght@400;700&display=swap\x27);"
   else "") ++
  ("\n\nbody \x7b\n  font-size: var(--base-font-size);\n  line-height: var(--base-line-height);\n  font-family: \"" ++
     s.fontFamily ++ "\", sans-serif;\n\x7d\n\n") ++
  cssHBlock "1" false "1.2" s ++
  cssHBlock "2" true "1.25" s ++
  cssHBlock "3" true "1.3" s ++
  cssHBlock "4" true "1.35" s ++
  cssHBlock "5" true "1.4" s ++
  cssHBlock "6" true "1.4" s ++
  ("p \x7b\n  margin-bottom: var(--paragraph-spacing);\n\x7d\n\nul, ol \x7b\n  margin-bottom: var(--paragraph-spacing);\n  padding-left: 2em;\n\x7d\n\nli \x7b\n  margin-bottom: var(--list-spacing);\n\x7d\n\nli:last-child \x7b\n  margin-bottom: 0;\n\x7d")

/-- `generateCSSCode()`. -/
def generateCSSCode (s : TypographySettings) : String :=
  "/* Typography Flow - Generated CSS */\n" ++
  (if s.responsiveScaling then cssMobileBlock s ++ cssTabletBlock s ++ cssDesktopBlock s
   else cssStaticBlock s) ++
  cssCommon s

/-- The optional `font-family` line of the heading rules in the SASS export. -/
def headingFontSASS (s : TypographySettings) : String :=
  if s.useSeparateHeadingFont then "font-family: $heading-font;" else ""

/-- The `$base-font-size{sfx}` and `$hN-size{sfx}` variable lines of the SASS
export for one viewport. -/
def sassViewportVars (sfx : String) (base : ℚ) (l : List ℚ) : String :=
  ("$base-font-size" ++ sfx ++ ": " ++ px base ++ ";\n") ++
  ("$h1-size" ++ sfx ++ ": " ++ px (sizeAt l 0) ++ ";\n") ++
  ("$h2-size" ++ sfx ++ ": " ++ px (sizeAt l 1) ++ ";\n") ++
  ("$h3-size" ++ sfx ++ ": " ++ px (sizeAt l 2) ++ ";\n") ++
  ("$h4-size" ++ sfx ++ ": " ++ px (sizeAt l 3) ++ ";\n") ++
  ("$h5-size" ++ sfx ++ ": " ++ px (sizeAt l 4) ++ ";\n") ++
  ("$h6-size" ++ sfx ++ ": " ++ px (sizeAt l 5) ++ ";\n")

/-- The header of `generateSASSCode`: font imports, breakpoints, font
families, font weights and base typography variables. -/
def sassHead (s : TypographySettings) : String :=
  ("// Font imports\n@import url(\x27https://fonts.googleapis.com/css2?family=" ++
     googleFam s.fontFamily ++ ":wght@400;700&display=swap\x27);\n") ++
  (if s.useSeparateHeadingFont = true ∧ s.headingFontFamily ≠ s.fontFamily then
     "@import url(\x27https://fonts.googleapis.com/css2?family=" ++
       googleFam s.headingFontFamily ++ ":wght@400;700&display=swap\x27);"
   else "") ++
  ("\n\n// Variables\n// Breakpoints\n$breakpoint-mobile: " ++ px s.breakpointMobile ++
     ";\n$breakpoint-tablet: " ++ px s.breakpointTablet ++
     ";\n\n// Font families\n$body-font: \"" ++ s.fontFamily ++ "\", sans-serif;\n") ++
  (if s.useSeparateHeadingFont then
     "$heading-font: \"" ++ s.headingFontFamily ++ "\", sans-serif;"
   else "") ++
  ("\n\n// Font weights\n$body-weight: " ++ numStr s.baseFontWeight ++ ";\n") ++
  ("$h1-weight: " ++ numStr (sizeAt (exportFontWeights s) 0) ++ ";\n") ++
  ("$h2-weight: " ++ numStr (sizeAt (exportFontWeights s) 1) ++ ";\n") ++
  ("$h3-weight: " ++ numStr (sizeAt (exportFontWeights s) 2) ++ ";\n") ++
  ("$h4-weight: " ++ numStr (sizeAt (exportFontWeights s) 3) ++ ";\n") ++
  ("$h5-weight: " ++ numStr (sizeAt (exportFontWeights s) 4) ++ ";\n") ++
  ("$h6-weight: " ++ numStr (sizeAt (exportFontWeights s) 5) ++ ";\n") ++
  ("\n// Base typography settings\n$base-line-height: " ++ numStr s.baseLineHeight ++
     ";\n$paragraph-spacing: " ++ emQ s.paragraphSpacing ++
     ";\n$heading-spacing: " ++ emQ s.headingSpacing ++
     ";\n$list-spacing: " ++ emQ s.listSpacing ++ ";\n\n")

/-- One heading rule of the SASS export's base (mobile-first or static)
styles; `sfx` selects the size variable (`-mobile` or empty). -/
def sassHBlock (n : String) (mt : Bool) (lh sfx : String) (s : TypographySettings) : String :=
  ("h" ++ n ++ " \x7b\n  font-size: $h" ++ n ++ "-size" ++ sfx ++ ";\n") ++
  (if mt then "  margin-top: 1.5em;\n" else "") ++
  ("  margin-bottom: $heading-spacing;\n  line-height: " ++ lh ++
     ";\n  font-weight: $h" ++ n ++ "-weight;\n  ") ++
  headingFontSASS s ++ "\n\x7d\n\n"

/-- One media query of the responsive SASS export (tablet or desktop). -/
def sassMediaQuery (bp sfx : String) : String :=
  ("@media (min-width: " ++ bp ++ ") \x7b\n  body \x7b\n    font-size: $base-font-size" ++
     sfx ++ ";\n  \x7d\n  \n") ++
  ("  h1 \x7b\n    font-size: $h1-size" ++ sfx ++ ";\n  \x7d\n  \n") ++
  ("  h2 \x7b\n    font-size: $h2-size" ++ sfx ++ ";\n  \x7d\n  \n") ++
  ("  h3 \x7b\n    font-size: $h3-size" ++ sfx ++ ";\n  \x7d\n  \n") ++
  ("  h4 \x7b\n    font-size: $h4-size" ++ sfx ++ ";\n  \x7d\n  \n") ++
  ("  h5 \x7b\n    font-size: $h5-size" ++ sfx ++ ";\n  \x7d\n  \n") ++
  ("  h6 \x7b\n    font-size: $h6-size" ++ sfx ++ ";\n  \x7d\n\x7d\n")

/-- The responsive-branch styles of `generateSASSCode` (mobile-first body and
heading rules followed by the tablet and desktop media queries). -/
def sassRespStyles (s : TypographySettings) : String :=
  ("// Base styles (mobile first)\nbody \x7b\n  font-size: $base-font-size-mobile;\n  line-height: $base-line-height;\n  font-family: $body-font;\n\x7d\n\n") ++
  sassHBlock "1" false "1.2" "-mobile" s ++
  sassHBlock "2" true "1.25" "-mobile" s ++
  sassHBlock "3" true "1.3" "-mobile" s ++
  sassHBlock "4" true "1.35" "-mobile" s ++
  sassHBlock "5" true "1.4" "-mobile" s ++
  sassHBlock "6" true "1.4" "-mobile" s ++
  ("// Tablet styles\n" ++ sassMediaQuery "$breakpoint-mobile" "-tablet") ++ "\n" ++
  ("// Desktop styles\n" ++ sassMediaQuery "$breakpoint-tablet" "-desktop")

/-- The non-responsive branch of `generateSASSCode`. -/
def sassStaticStyles (s : TypographySettings) : String :=
  sassViewportVars "" s.baseFontSize (desktopSizes s) ++ "\n" ++
  ("body \x7b\n  font-size: $base-font-size;\n  line-height: $base-line-height;\n  font-family: $body-font;\n\x7d\n\n") ++
  sassHBlock "1" false "1.2" "" s ++
  sassHBlock "2" true "1.25" "" s ++
  sassHBlock "3" true "1.3" "" s ++
  sassHBlock "4" true "1.35" "" s ++
  sassHBlock "5" true "1.4" "" s ++
  sassHBlock "6" true "1.4" "" s

/-- The common trailing styles of `generateSASSCode`. -/
def sassCommon : String :=
  "\np \x7b\n  margin-bottom: $paragraph-spacing;\n\x7d\n\nul, ol \x7b\n  margin-bottom: $paragraph-spacing;\n  padding-left: 2em;\n\x7d\n\nli \x7b\n  margin-bottom: $list-spacing;\n\x7d\n\nli:last-child \x7b\n  margin-bottom: 0;\n\x7d"

/-- `generateSASSCode()`. -/
def generateSASSCode (s : TypographySettings) : String :=
  "// Typography Flow - Generated SASS\n" ++
  sassHead s ++
  (if s.responsiveScaling then
     ("// Mobile typography (base)\n" ++
        sassViewportVars "-mobile" (mobileBaseFontSize s) (mobileSizes s)) ++
     ("\n// Tablet typography\n" ++
        sassViewportVars "-tablet" (tabletBaseFontSize s) (tabletSizes s)) ++
     ("\n// Desktop typography\n" ++
        sassViewportVars "-desktop" s.baseFontSize (desktopSizes s)) ++
     "\n" ++ sassRespStyles s
   else sassStaticStyles s) ++
  sassCommon

/-- One leaf design token of the Figma export, as laid out by
`JSON.stringify(tokens, null, 2)`: a `key` object holding a single string
`value`; `sep` is what follows the closing brace (a comma and newline, a bare
newline, or nothing). -/
def jsonEntry (ind key val sep : String) : String :=
  (ind ++ jsonStr key ++ ": \x7b\n") ++
  (ind ++ "  \"value\": " ++ jsonStr val ++ "\n") ++
  (ind ++ "\x7d" ++ sep)

/-- A `base`, `h1` .. `h6` pixel-size token group of the Figma export (used
for `fontSize` and for `responsiveSizes.mobile` / `responsiveSizes.tablet`). -/
def figmaSizeGroup (ind : String) (base : ℚ) (l : List ℚ) : String :=
  jsonEntry ind "base" (px base) ",\n" ++
  jsonEntry ind "h1" (px (sizeAt l 0)) ",\n" ++
  jsonEntry ind "h2" (px (sizeAt l 1)) ",\n" ++
  jsonEntry ind "h3" (px (sizeAt l 2)) ",\n" ++
  jsonEntry ind "h4" (px (sizeAt l 3)) ",\n" ++
  jsonEntry ind "h5" (px (sizeAt l 4)) ",\n" ++
  jsonEntry ind "h6" (px (sizeAt l 5)) ""

/-- `generateFigmaTokens()`: the token object serialised by
`JSON.stringify(tokens, null, 2)`, with the object's insertion order
(`responsiveSizes` is added to `typography` last, before serialisation). -/
def generateFigmaTokens (s : TypographySettings) : String :=
  ("\x7b\n  \"typography\": \x7b\n    \"fontFamilies\": \x7b\n") ++
  jsonEntry "      " "body" s.fontFamily ",\n" ++
  jsonEntry "      " "heading"
    (if s.useSeparateHeadingFont then s.headingFontFamily else s.fontFamily) "\n" ++
  ("    \x7d,\n    \"fontWeights\": \x7b\n") ++
  jsonEntry "      " "body" (numStr s.baseFontWeight) ",\n" ++
  jsonEntry "      " "h1" (numStr (sizeAt (exportFontWeights s) 0)) ",\n" ++
  jsonEntry "      " "h2" (numStr (sizeAt (exportFontWeights s) 1)) ",\n" ++
  jsonEntry "      " "h3" (numStr (sizeAt (exportFontWeights s) 2)) ",\n" ++
  jsonEntry "      " "h4" (numStr (sizeAt (exportFontWeights s) 3)) ",\n" ++
  jsonEntry "      " "h5" (numStr (sizeAt (exportFontWeights s) 4)) ",\n" ++
  jsonEntry "      " "h6" (numStr (sizeAt (exportFontWeights s) 5)) "\n" ++
  ("    \x7d,\n    \"lineHeights\": \x7b\n") ++
  jsonEntry "      " "body" (numStr s.baseLineHeight) ",\n" ++
  jsonEntry "      " "h1" "1.2" ",\n" ++
  jsonEntry "      " "h2" "1.25" ",\n" ++
  jsonEntry "      " "h3" "1.3" ",\n" ++
  jsonEntry "      " "h4" "1.35" ",\n" ++
  jsonEntry "      " "h5" "1.4" ",\n" ++
  jsonEntry "      " "h6" "1.4" "\n" ++
  ("    \x7d,\n    \"fontSize\": \x7b\n") ++
  figmaSizeGroup "      " s.baseFontSize (desktopSizes s) ++
  ("\n    \x7d") ++
  (if s.responsiveScaling then
     (",\n    \"responsiveSizes\": \x7b\n      \"breakpoints\": \x7b\n") ++
     jsonEntry "        " "mobile" (px s.breakpointMobile) ",\n" ++
     jsonEntry "        " "tablet" (px s.breakpointTablet) "\n" ++
     ("      \x7d,\n      \"scaleFactors\": \x7b\n") ++
     jsonEntry "        " "mobile" (numStr s.mobileScaleFactor) ",\n" ++
     jsonEntry "        " "tablet" (numStr s.tabletScaleFactor) "\n" ++
     ("      \x7d,\n      \"mobile\": \x7b\n") ++
     figmaSizeGroup "        " (mobileBaseFontSize s) (mobileSizes s) ++
     ("\n      \x7d,\n      \"tablet\": \x7b\n") ++
     figmaSizeGroup "        " (tabletBaseFontSize s) (tabletSizes s) ++
     ("\n      \x7d\n    \x7d")
   else "") ++
  ("\n  \x7d,\n  \"spacing\": \x7b\n") ++
  jsonEntry "    " "paragraph" (emQ s.paragraphSpacing) ",\n" ++
  jsonEntry "    " "heading" (emQ s.headingSpacing) ",\n" ++
  jsonEntry "    " "list" (emQ s.listSpacing) "\n" ++
  ("  \x7d\n\x7d")

/-- The UI state touched by the markdown-import dialog's Import button. -/
structure UIState where
  previewContent : String
  importMarkdownOpen : Bool
  alerts : List String
deriving DecidableEq

/-- The Import button's `onClick` handler.  The conversion itself
(`markdownToHtml` in `src/util/markdown.ts`) is delegated entirely to the
external remark/rehype pipeline, so it is abstracted as a fallible function
`convert`; on success the preview content is replaced and the dialog closed,
on failure an alert is raised (`console.error` is not modelled) and the rest
of the state is left untouched. -/
def importHandler (convert : String → Except String String)
    (markdownInput : String) (st : UIState) : UIState :=
  match convert markdownInput with
  | Except.ok html => { st with previewContent := html, importMarkdownOpen := false }
  | Except.error _ =>
    { st with alerts := st.alerts ++ ["Error parsing markdown. Please check your input."] }

/-- Behaviour of the Import handler claimed by the spec: on conversion
failure the preview content (and the rest of the dialog state) is unchanged
and an alert is appended; on success the preview content is replaced by the
produced HTML and the dialog is closed. -/
def importBehaves (convert : String → Except String String)
    (input : String) (st : UIState) : Prop :=
  (∀ e, convert input = Except.error e →
     (importHandler convert input st).previewContent = st.previewContent ∧
     (importHandler convert input st).importMarkdownOpen = st.importMarkdownOpen ∧
     (importHandler convert input st).alerts =
       st.alerts ++ ["Error parsing markdown. Please check your input."]) ∧
  (∀ html, convert input = Except.ok html →
     (importHandler convert input st).previewContent = html ∧
     (importHandler convert input st).importMarkdownOpen = false ∧
     (importHandler convert input st).alerts = st.alerts)

/-- The linear ramp's claimed shape: the literal descending list produced
from `maxFontSize` down to `minFontSize` in equal unrounded steps of
`(maxFontSize - minFontSize) / 5`, with non-increasing rounded entries. -/
def linearRampSpec (s : TypographySettings) : Prop :=
  rampCalculateSizes RampAlg.linear s =
    [jroundQ s.maxFontSize,
     jroundQ (s.maxFontSize - (s.maxFontSize - s.minFontSize) / 5),
     jroundQ (s.maxFontSize - 2 * ((s.maxFontSize - s.minFontSize) / 5)),
     jroundQ (s.maxFontSize - 3 * ((s.maxFontSize - s.minFontSize) / 5)),
     jroundQ (s.maxFontSize - 4 * ((s.maxFontSize - s.minFontSize) / 5)),
     jroundQ s.minFontSize] ∧
  sizeAt (rampCalculateSizes RampAlg.linear s) 0 = jroundQ s.maxFontSize ∧
  sizeAt (rampCalculateSizes RampAlg.linear s) 5 = jroundQ s.minFontSize ∧
  (∀ i : Fin 5, sizeAt (rampCalculateSizes RampAlg.linear s) (i + 1) ≤
     sizeAt (rampCalculateSizes RampAlg.linear s) i) ∧
  (∀ i : Fin 5,
     (s.maxFontSize - (i : ℚ) * ((s.maxFontSize - s.minFontSize) / 5)) -
       (s.maxFontSize - ((i : ℚ) + 1) * ((s.maxFontSize - s.minFontSize) / 5)) =
       (s.maxFontSize - s.minFontSize) / 5)

/-- Agreement of all ramp calculations and export generators across two runs
on the given settings records. -/
def sameOutputs (s₁ s₂ : TypographySettings) : Prop :=
  (∀ a, rampCalculateSizes a s₁ = rampCalculateSizes a s₂) ∧
  (∀ a, weightRampCalculateWeights a s₁ = weightRampCalculateWeights a s₂) ∧
  (∀ v, calculateSizesForViewport v s₁ = calculateSizesForViewport v s₂) ∧
  generateCSSCode s₁ = generateCSSCode s₂ ∧
  generateSASSCode s₁ = generateSASSCode s₂ ∧
  generateFigmaTokens s₁ = generateFigmaTokens s₂

/-- The three export generators all embed the very ramps computed by
`calculateSizesForViewport` (per viewport, together with the derived mobile
and tablet base font sizes), each as the contiguous labelled run of `px`
values of its output format. -/
def exportsShareRamp (s : TypographySettings) : Prop :=
  desktopSizes s = calculateSizesForViewport ViewportSize.desktop s ∧
  tabletSizes s = calculateSizesForViewport ViewportSize.tablet s ∧
  mobileSizes s = calculateSizesForViewport ViewportSize.mobile s ∧
  (s.responsiveScaling = true →
    containsSeg (cssSizeVars "    " (desktopSizes s)) (generateCSSCode s) ∧
    containsSeg (cssSizeVars "    " (tabletSizes s)) (generateCSSCode s) ∧
    containsSeg (cssSizeVars "  " (mobileSizes s)) (generateCSSCode s) ∧
    containsSeg ("    --base-font-size: " ++ px (tabletBaseFontSize s) ++ ";\n")
      (generateCSSCode s) ∧
    containsSeg ("  --base-font-size: " ++ px (mobileBaseFontSize s) ++ ";\n")
      (generateCSSCode s) ∧
    containsSeg (sassViewportVars "-desktop" s.baseFontSize (desktopSizes s))
      (generateSASSCode s) ∧
    containsSeg (sassViewportVars "-tablet" (tabletBaseFontSize s) (tabletSizes s))
      (generateSASSCode s) ∧
    containsSeg (sassViewportVars "-mobile" (mobileBaseFontSize s) (mobileSizes s))
      (generateSASSCode s) ∧
    containsSeg (figmaSizeGroup "      " s.baseFontSize (desktopSizes s))
      (generateFigmaTokens s) ∧
    containsSeg (figmaSizeGroup "        " (tabletBaseFontSize s) (tabletSizes s))
      (generateFigmaTokens s) ∧
    containsSeg (figmaSizeGroup "        " (mobileBaseFontSize s) (mobileSizes s))
      (generateFigmaTokens s)) ∧
  (s.responsiveScaling = false →
    containsSeg (cssSizeVars "  " (desktopSizes s)) (generateCSSCode s) ∧
    containsSeg (sassViewportVars "" s.baseFontSize (desktopSizes s))
      (generateSASSCode s) ∧
    containsSeg (figmaSizeGroup "      " s.baseFontSize (desktopSizes s))
      (generateFigmaTokens s))

/-- A settings record whose custom ramp list does not have six entries
(nothing in the `TypographySettings` interface rules this out). -/
def c2Bad : TypographySettings :=
  { defaultSettings with rampAlgorithm := RampAlg.custom, customRampValues := [] }

/-- A non-responsive settings record whose custom ramp holds a non-integer
value (`10.5`). -/
def c5Bad : TypographySettings :=
  { defaultSettings with
      responsiveScaling := false,
      rampAlgorithm := RampAlg.custom,
      customRampValues := [21/2, 2, 3, 4, 5, 6] }

/-- A settings record with the weight ramp disabled. -/
def noRampSettings : TypographySettings :=
  { defaultSettings with useWeightRamp := false }

lemma strAppendAssoc (a b c : String) : a ++ b ++ c = a ++ (b ++ c) :=
  String.ext (by simp)

lemma strAppendEmpty (a : String) : a ++ "" = a :=
  String.ext (by simp)

lemma strEmptyAppend (a : String) : "" ++ a = a :=
  String.ext (by simp)

lemma containsSeg_tail (x p : String) : containsSeg p (x ++ p) :=
  ⟨x, "", by rw [strAppendEmpty]⟩

lemma containsSeg_head (p y : String) : containsSeg p (p ++ y) :=
  ⟨"", y, by rw [strEmptyAppend]⟩

lemma containsSeg_left (u : String) {p t : String} (h : containsSeg p t) :
    containsSeg p (u ++ t) := by
  obtain ⟨a, b, rfl⟩ := h
  exact ⟨u ++ a, b, by rw [strAppendAssoc u, strAppendAssoc u]⟩

lemma containsSeg_right {p t : String} (u : String) (h : containsSeg p t) :
    containsSeg p (t ++ u) := by
  obtain ⟨a, b, rfl⟩ := h
  exact ⟨a, b ++ u, by rw [strAppendAssoc, strAppendAssoc]⟩

lemma jroundQ_mono {a b : ℚ} (h : a ≤ b) : jroundQ a ≤ jroundQ b := by
  unfold jroundQ
  exact_mod_cast Int.floor_mono (by linarith : a + 1/2 ≤ b + 1/2)

lemma jroundQ_intCast (n : ℤ) : jroundQ (n : ℚ) = (n : ℚ) := by
  unfold jroundQ
  have h0 : ⌊(1 : ℚ)/2⌋ = 0 := by
    rw [Int.floor_eq_zero_iff]
    constructor <;> norm_num
  rw [Int.floor_int_add, h0, add_zero]

lemma jroundQ_idem (q : ℚ) : jroundQ (jroundQ q) = jroundQ q :=
  jroundQ_intCast _

lemma weights_default_of_not_ramp (s : TypographySettings)
    (h : s.useWeightRamp = false) (a : WeightAlg) :
    weightRampCalculateWeights a s = [700, 700, 600, 600, 500, 400] := by
  cases a <;>
    simp [weightRampCalculateWeights, weightsStepped, weightsLinear, weightsCustom, h]

example : jroundQ (21/10) = 2 := by decide
example : jroundQ (16 * (6/5)) = 19 := by decide
example : jroundQ (-(5/2)) = -2 := by decide
example : numStr (3/2) = "1.5" := by decide
example : numStr 480 = "480" := by decide
example : numStr (3/4) = "0.75" := by decide
example : sizesModular defaultSettings = [33, 28, 23, 19, 16, 14] := by decide
example : sizesLinear defaultSettings = [48, 41, 34, 28, 21, 14] := by decide
example : sizesFibonacci defaultSettings = [43, 27, 16, 11, 5, 5] := by decide
example : mobileSizes defaultSettings = [25, 21, 17, 14, 12, 11] := by decide
example : tabletSizes defaultSettings = [30, 25, 21, 17, 14, 13] := by decide
example : exportFontWeights defaultSettings = [700, 700, 600, 600, 500, 400] := by decide

/-- Claim C1: for every settings record the modular-scale ramp returns
`[round(b*r^4), round(b*r^3), round(b*r^2), round(b*r^1), round(b),
round(0.9*b)]` with `b = baseFontSize`, `r = scaleRatio`; in particular for
base font size 16 and scale ratio 1.2 (the defaults) the H4 size is
`round(16 * 1.2)`. -/
theorem C1_modular_scale_formula :
    (∀ s : TypographySettings,
       rampCalculateSizes RampAlg.modular s =
         [jroundQ (s.baseFontSize * s.scaleRatio ^ 4),
          jroundQ (s.baseFontSize * s.scaleRatio ^ 3),
          jroundQ (s.baseFontSize * s.scaleRatio ^ 2),
          jroundQ (s.baseFontSize * s.scaleRatio ^ 1),
          jroundQ s.baseFontSize,
          jroundQ ((9/10) * s.baseFontSize)]) ∧
    defaultSettings.baseFontSize = 16 ∧ defaultSettings.scaleRatio = 6/5 ∧
    sizeAt (rampCalculateSizes RampAlg.modular defaultSettings) 3 =
      jroundQ (16 * (6/5)) := by
  refine ⟨fun s => ?_, by decide, by decide, by decide⟩
  simp [rampCalculateSizes, sizesModular, mul_comm]

/-- Claim C2 (amended): whenever the custom ramp lists hold six entries —
as every list the UI ever builds does — each of the four size algorithms
returns exactly six sizes and each of the three weight algorithms returns
exactly six weights.  As literally stated over every settings record the
claim fails, because `custom` returns `customRampValues` (and the stepped
and custom weight algorithms return `customWeightRampValues`) unchanged,
whatever its length. -/
theorem C2_always_six_values (s : TypographySettings)
    (h1 : s.customRampValues.length = 6)
    (h2 : s.customWeightRampValues.length = 6) :
    ∀ (ra : RampAlg) (wa : WeightAlg),
      (rampCalculateSizes ra s).length = 6 ∧
      (weightRampCalculateWeights wa s).length = 6 := by
  intro ra wa
  constructor
  · cases ra <;>
      simp [rampCalculateSizes, sizesModular, sizesLinear, sizesFibonacci, sizesCustom, h1]
  · cases hu : s.useWeightRamp <;> cases wa <;>
      simp [weightRampCalculateWeights, weightsStepped, weightsLinear, weightsCustom, hu, h2]

/-- Claim C2, witness: the default settings satisfy the length hypotheses and
get six sizes and weights. -/
theorem C2_always_six_values_witness :
    defaultSettings.customRampValues.length = 6 ∧
    defaultSettings.customWeightRampValues.length = 6 ∧
    ((rampCalculateSizes RampAlg.custom defaultSettings).length = 6 ∧
     (weightRampCalculateWeights WeightAlg.stepped defaultSettings).length = 6) :=
  ⟨by decide, by decide,
   C2_always_six_values defaultSettings (by decide) (by decide)
     RampAlg.custom WeightAlg.stepped⟩

/-- Claim C2, counterexample to the literal statement: a record whose custom
ramp list is empty makes the selected (custom) algorithm return zero sizes,
not six. -/
theorem C2_counterexample :
    (rampCalculateSizes c2Bad.rampAlgorithm c2Bad).length ≠ 6 := by decide

/-- Claim C3: the Import handler replaces the preview content (and closes the
dialog) only when the markdown conversion succeeds; when the conversion
fails it leaves the previous state unchanged and raises an alert. -/
theorem C3_import_error_keeps_preview
    (convert : String → Except String String) (input : String) (st : UIState) :
    importBehaves convert input st := by
  constructor
  · intro e he
    refine ⟨?_, ?_, ?_⟩ <;> simp [importHandler, he]
  · intro html hh
    refine ⟨?_, ?_, ?_⟩ <;> simp [importHandler, hh]

/-- Claim C3, witness: a failing conversion leaves the previous preview
content in place and appends the alert; a succeeding one replaces it. -/
theorem C3_import_error_keeps_preview_witness :
    importBehaves (fun _ => Except.error "conversion failed") "# Title"
      { previewContent := "old preview", importMarkdownOpen := true, alerts := [] } :=
  C3_import_error_keeps_preview _ _ _

/-- Claim C6: under the caller-enforced range validity
`minFontSize < maxFontSize`, the linear ramp is the non-increasing sequence
`H1 >= ... >= H6` with `H1 = round(maxFontSize)`, `H6 = round(minFontSize)`,
whose unrounded values descend in equal steps of
`(maxFontSize - minFontSize) / 5`. -/
theorem C6_linear_ramp_descends (s : TypographySettings)
    (h : s.minFontSize < s.maxFontSize) : linearRampSpec s := by
  have hstep : 0 ≤ (s.maxFontSize - s.minFontSize) / 5 :=
    div_nonneg (by linarith) (by norm_num)
  have h45 : s.maxFontSize - 4 * ((s.maxFontSize - s.minFontSize) / 5) -
      s.minFontSize = (s.maxFontSize - s.minFontSize) / 5 := by ring
  refine ⟨rfl, rfl, rfl, ?_, fun i => by ring⟩
  intro i
  fin_cases i
  · exact jroundQ_mono (by linarith)
  · exact jroundQ_mono (by linarith)
  · exact jroundQ_mono (by linarith)
  · exact jroundQ_mono (by linarith)
  · exact jroundQ_mono (by linarith)

/-- Claim C6, witness: the default settings have `14 < 48` and their linear
ramp satisfies the descending-ramp specification. -/
theorem C6_linear_ramp_descends_witness :
    defaultSettings.minFontSize < defaultSettings.maxFontSize ∧
    linearRampSpec defaultSettings :=
  ⟨by decide, C6_linear_ramp_descends defaultSettings (by decide)⟩

/-- Claim C7: the fibonacci ramp returns
`[round(8b/3), round(5b/3), round(3b/3), round(2b/3), round(b/3), round(b/3)]`
for `b = baseFontSize`; in particular H3 equals `round(b)` and H5 always
equals H6. -/
theorem C7_fibonacci_formula :
    (∀ s : TypographySettings,
       rampCalculateSizes RampAlg.fibonacci s =
         [jroundQ (8 * s.baseFontSize / 3),
          jroundQ (5 * s.baseFontSize / 3),
          jroundQ (3 * s.baseFontSize / 3),
          jroundQ (2 * s.baseFontSize / 3),
          jroundQ (s.baseFontSize / 3),
          jroundQ (s.baseFontSize / 3)]) ∧
    (∀ s : TypographySettings,
       sizeAt (rampCalculateSizes RampAlg.fibonacci s) 2 = jroundQ s.baseFontSize) ∧
    (∀ s : TypographySettings,
       sizeAt (rampCalculateSizes RampAlg.fibonacci s) 4 =
         sizeAt (rampCalculateSizes RampAlg.fibonacci s) 5) := by
  refine ⟨fun s => ?_, fun s => ?_, fun s => rfl⟩
  · show [jroundQ (s.baseFontSize * 8 / 3), jroundQ (s.baseFontSize * 5 / 3),
      jroundQ (s.baseFontSize * 3 / 3), jroundQ (s.baseFontSize * 2 / 3),
      jroundQ (s.baseFontSize * 1 / 3), jroundQ (s.baseFontSize * 1 / 3)] = _
    refine congrArg₂ _ (congrArg _ (by ring)) ?_
    refine congrArg₂ _ (congrArg _ (by ring)) ?_
    refine congrArg₂ _ (congrArg _ (by ring)) ?_
    refine congrArg₂ _ (congrArg _ (by ring)) ?_
    refine congrArg₂ _ (congrArg _ (by ring)) ?_
    refine congrArg₂ _ (congrArg _ (by ring)) rfl
  · show jroundQ (s.baseFontSize * 3 / 3) = jroundQ s.baseFontSize
    exact congrArg _ (by ring)

/-- Claim C9: the stepped and custom font-weight algorithms are extensionally
equal, both returning `customWeightRampValues` when `useWeightRamp` is set
and the default list `[700, 700, 600, 600, 500, 400]` otherwise. -/
theorem C9_stepped_eq_custom :
    ∀ s : TypographySettings,
      weightRampCalculateWeights WeightAlg.stepped s =
        weightRampCalculateWeights WeightAlg.custom s ∧
      weightRampCalculateWeights WeightAlg.stepped s =
        (if s.useWeightRamp then s.customWeightRampValues
         else [700, 700, 600, 600, 500, 400]) :=
  fun _ => ⟨rfl, rfl⟩

/-- Claim C10: with `useWeightRamp = false` every weight algorithm returns
the fixed default list `[700, 700, 600, 600, 500, 400]` — independently of
`minFontWeight`, `maxFontWeight` and `customWeightRampValues` — and hence
the export generators' own `useWeightRamp` fallback to that list never
changes the exported weights. -/
theorem C10_weight_fallback_redundant :
    (∀ s : TypographySettings, s.useWeightRamp = false →
       ∀ a, weightRampCalculateWeights a s = [700, 700, 600, 600, 500, 400]) ∧
    (∀ s : TypographySettings,
       exportFontWeights s =
         weightRampCalculateWeights s.fontWeightRampAlgorithm s) := by
  refine ⟨weights_default_of_not_ramp, fun s => ?_⟩
  cases hu : s.useWeightRamp
  · rw [exportFontWeights, hu, weights_default_of_not_ramp s hu]
    simp
  · simp [exportFontWeights, hu]

/-- Claim C10, witness: with the weight ramp disabled, the linear weight
algorithm returns the default list and the export weights equal the selected
algorithm's result. -/
theorem C10_weight_fallback_redundant_witness :
    noRampSettings.useWeightRamp = false ∧
    weightRampCalculateWeights WeightAlg.linear noRampSettings =
      [700, 700, 600, 600, 500, 400] ∧
    exportFontWeights noRampSettings =
      weightRampCalculateWeights noRampSettings.fontWeightRampAlgorithm noRampSettings :=
  ⟨by decide,
   C10_weight_fallback_redundant.1 noRampSettings (by decide) WeightAlg.linear,
   C10_weight_fallback_redundant.2 noRampSettings⟩

/-- Claim C5 (amended): every viewport's sizes are the selected ramp with
each entry multiplied by the viewport scale factor and rounded, where the
factor is the mobile/tablet scale factor when `responsiveScaling` is set and
`1` otherwise (desktop always `1`); when `responsiveScaling` is false all
three viewports yield the entrywise-rounded ramp, which is the ramp itself
for the three formula-based algorithms — but not necessarily for `custom`,
whose raw values need not be whole numbers. -/
theorem C5_viewport_scaling (s : TypographySettings) (v : ViewportSize) :
    calculateSizesForViewport v s =
      (rampCalculateSizes s.rampAlgorithm s).map
        (fun x => jroundQ (x * getScaleFactor v s)) ∧
    getScaleFactor ViewportSize.mobile s =
      (if s.responsiveScaling then s.mobileScaleFactor else 1) ∧
    getScaleFactor ViewportSize.tablet s =
      (if s.responsiveScaling then s.tabletScaleFactor else 1) ∧
    getScaleFactor ViewportSize.desktop s = 1 ∧
    (s.responsiveScaling = false →
       calculateSizesForViewport v s =
         (rampCalculateSizes s.rampAlgorithm s).map (fun x => jroundQ x)) ∧
    (s.responsiveScaling = false → s.rampAlgorithm ≠ RampAlg.custom →
       calculateSizesForViewport v s = rampCalculateSizes s.rampAlgorithm s) := by
  have hfac : s.responsiveScaling = false → getScaleFactor v s = 1 := by
    intro h
    cases v <;> simp [getScaleFactor, h]
  refine ⟨rfl, rfl, rfl, rfl, fun h => ?_, fun h hc => ?_⟩
  · simp [calculateSizesForViewport, hfac h]
  · rw [calculateSizesForViewport]
    cases halg : s.rampAlgorithm
    · simp [rampCalculateSizes, sizesModular, hfac h, jroundQ_idem]
    · simp [rampCalculateSizes, sizesLinear, hfac h, jroundQ_idem]
    · simp [rampCalculateSizes, sizesFibonacci, hfac h, jroundQ_idem]
    · exact absurd halg hc

/-- Claim C5, witness: at the default settings and the mobile viewport, the
viewport calculation, scale factors, and non-responsive specialisations hold. -/
theorem C5_viewport_scaling_witness :
    calculateSizesForViewport ViewportSize.mobile defaultSettings =
      (rampCalculateSizes defaultSettings.rampAlgorithm defaultSettings).map
        (fun x => jroundQ (x * getScaleFactor ViewportSize.mobile defaultSettings)) ∧
    getScaleFactor ViewportSize.mobile defaultSettings =
      (if defaultSettings.responsiveScaling then defaultSettings.mobileScaleFactor else 1) ∧
    getScaleFactor ViewportSize.tablet defaultSettings =
      (if defaultSettings.responsiveScaling then defaultSettings.tabletScaleFactor else 1) ∧
    getScaleFactor ViewportSize.desktop defaultSettings = 1 ∧
    (defaultSettings.responsiveScaling = false →
       calculateSizesForViewport ViewportSize.mobile defaultSettings =
         (rampCalculateSizes defaultSettings.rampAlgorithm defaultSettings).map
           (fun x => jroundQ x)) ∧
    (defaultSettings.responsiveScaling = false →
       defaultSettings.rampAlgorithm ≠ RampAlg.custom →
       calculateSizesForViewport ViewportSize.mobile defaultSettings =
         rampCalculateSizes defaultSettings.rampAlgorithm defaultSettings) :=
  C5_viewport_scaling defaultSettings ViewportSize.mobile

/-- Claim C5, counterexample to the literal statement: with responsive
scaling off and a custom ramp holding `10.5`, the desktop size list is the
rounded list, not the unscaled ramp itself. -/
theorem C5_counterexample :
    calculateSizesForViewport ViewportSize.desktop c5Bad ≠
      rampCalculateSizes c5Bad.rampAlgorithm c5Bad := by decide

/-- Claim C8: every ramp calculation and every export generator is a
deterministic pure function of the settings record — two runs on equal
records agree on all outputs. -/
theorem C8_deterministic (s₁ s₂ : TypographySettings) (h : s₁ = s₂) :
    sameOutputs s₁ s₂ := by
  subst h
  exact ⟨fun _ => rfl, fun _ => rfl, fun _ => rfl, rfl, rfl, rfl⟩

/-- Claim C8, witness: two runs on the default settings agree. -/
theorem C8_deterministic_witness :
    defaultSettings = defaultSettings ∧ sameOutputs defaultSettings defaultSettings :=
  ⟨rfl, C8_deterministic defaultSettings defaultSettings rfl⟩

/-- Claim C4: the three export generators embed the same computed values —
the desktop H1–H6 pixel sizes and, under responsive scaling, the mobile and
tablet H1–H6 pixel sizes and derived base font sizes — each being the very
ramp computed by `calculateSizesForViewport` for that viewport. -/
theorem C4_exports_embed_same_ramp (s : TypographySettings) : exportsShareRamp s := by
  refine ⟨rfl, rfl, rfl, fun h => ?_, fun h => ?_⟩
  · refine ⟨?_, ?_, ?_, ?_, ?_, ?_, ?_, ?_, ?_, ?_, ?_⟩
    · unfold generateCSSCode
      rw [if_pos h]
      refine containsSeg_right _ (containsSeg_left _ (containsSeg_left _ ?_))
      unfold cssDesktopBlock
      exact containsSeg_right _ (containsSeg_tail _ _)
    · unfold generateCSSCode
      rw [if_pos h]
      refine containsSeg_right _ (containsSeg_left _ (containsSeg_right _ (containsSeg_left _ ?_)))
      unfold cssTabletBlock
      exact containsSeg_right _ (containsSeg_tail _ _)
    · unfold generateCSSCode
      rw [if_pos h]
      refine containsSeg_right _ (containsSeg_left _ (containsSeg_right _ (containsSeg_right _ ?_)))
      unfold cssMobileBlock
      exact containsSeg_right _ (containsSeg_right _ (containsSeg_tail _ _))
    · unfold generateCSSCode
      rw [if_pos h]
      refine containsSeg_right _ (containsSeg_left _ (containsSeg_right _ (containsSeg_left _ ?_)))
      unfold cssTabletBlock
      exact containsSeg_right _ (containsSeg_right _ (containsSeg_tail _ _))
    · unfold generateCSSCode
      rw [if_pos h]
      refine containsSeg_right _ (containsSeg_left _ (containsSeg_right _ (containsSeg_right _ ?_)))
      unfold cssMobileBlock
      exact containsSeg_right _ (containsSeg_right _ (containsSeg_right _ (containsSeg_right _
        (containsSeg_right _ (containsSeg_right _ (containsSeg_right _ (containsSeg_tail _ _)))))))
    · unfold generateSASSCode
      rw [if_pos h]
      refine containsSeg_right _ (containsSeg_left _ ?_)
      exact containsSeg_right _ (containsSeg_right _ (containsSeg_left _ (containsSeg_tail _ _)))
    · unfold generateSASSCode
      rw [if_pos h]
      refine containsSeg_right _ (containsSeg_left _ ?_)
      exact containsSeg_right _ (containsSeg_right _ (containsSeg_right _
        (containsSeg_left _ (containsSeg_tail _ _))))
    · unfold generateSASSCode
      rw [if_pos h]
      refine containsSeg_right _ (containsSeg_left _ ?_)
      exact containsSeg_right _ (containsSeg_right _ (containsSeg_right _
        (containsSeg_right _ (containsSeg_tail _ _))))
    · unfold generateFigmaTokens
      exact containsSeg_right _ (containsSeg_right _ (containsSeg_right _ (containsSeg_right _
        (containsSeg_right _ (containsSeg_right _ (containsSeg_right _ (containsSeg_tail _ _)))))))
    · unfold generateFigmaTokens
      rw [if_pos h]
      refine containsSeg_right _ (containsSeg_right _ (containsSeg_right _ (containsSeg_right _
        (containsSeg_right _ (containsSeg_left _ ?_)))))
      exact containsSeg_right _ (containsSeg_tail _ _)
    · unfold generateFigmaTokens
      rw [if_pos h]
      refine containsSeg_right _ (containsSeg_right _ (containsSeg_right _ (containsSeg_right _
        (containsSeg_right _ (containsSeg_left _ ?_)))))
      exact containsSeg_right _ (containsSeg_right _ (containsSeg_right _ (containsSeg_tail _ _)))
  · have h' : ¬(s.responsiveScaling = true) := by simp [h]
    refine ⟨?_, ?_, ?_⟩
    · unfold generateCSSCode
      rw [if_neg h']
      refine containsSeg_right _ (containsSeg_left _ ?_)
      unfold cssStaticBlock
      exact containsSeg_right _ (containsSeg_right _ (containsSeg_tail _ _))
    · unfold generateSASSCode
      rw [if_neg h']
      refine containsSeg_right _ (containsSeg_left _ ?_)
      unfold sassStaticStyles
      exact containsSeg_right _ (containsSeg_right _ (containsSeg_right _ (containsSeg_right _
        (containsSeg_right _ (containsSeg_right _ (containsSeg_right _ (containsSeg_head _ _)))))))
    · unfold generateFigmaTokens
      exact containsSeg_right _ (containsSeg_right _ (containsSeg_right _ (containsSeg_right _
        (containsSeg_right _ (containsSeg_right _ (containsSeg_right _ (containsSeg_tail _ _)))))))

/-- Claim C4, witness: the default (responsive) settings' exports embed the
shared ramps. -/
theorem C4_exports_embed_same_ramp_witness : exportsShareRamp defaultSettings :=
  C4_exports_embed_same_ramp defaultSettings
